import Mathlib

/-!
Verification development for the Vayu AI air-safety system.

The repository ships a React dashboard (Dashboard.jsx, PredictionPanel,
SensorCard, BlockchainLog, FanControl, mockData.js) together with an API
client and a README describing the backend engine (SensorIngestGate,
FaultDetector, OverrideRegistry, DecisionEngine, AuditLedger).  The backend
implementation itself is not part of the repository snapshot, so the engine
components below are modelled from the specification; the dashboard
components are embedded directly from the JSX source.

Numeric sensor magnitudes are modelled as rationals, hashes and timestamps
as naturals.
-/

/-- Modelled from the spec: the AuditLedger is missing from the snapshot.
A LedgerEntry carries a global sequence number, the previous entry hash,
this entry hash (computed over previous hash and canonical payload bytes),
the canonical payload bytes, and a timestamp. -/
structure LedgerEntry where
  seq : Nat
  prevHash : Nat
  hash : Nat
  payload : List Nat
  timestamp : Nat
deriving Repr, DecidableEq

/-- Modelled from the spec: the fixed genesis value used as the previous
hash of entry 0. -/
def genesisHash : Nat := 0

/-- Modelled from the spec: the hash function over the previous entry hash
concatenated with the canonical payload bytes, folded byte by byte into a
64-bit accumulator. -/
def ledgerHash (prev : Nat) (payload : List Nat) : Nat :=
  payload.foldl (fun a b => (a * 257 + b + 1) % 2 ^ 64) (prev % 2 ^ 64)

/-- Hash of the tip of a ledger when the chain so far started from the
running hash `prev`: the hash of the last entry, or `prev` itself when the
ledger is empty. -/
def ledgerTipFrom (prev : Nat) (L : List LedgerEntry) : Nat :=
  match L.getLast? with
  | none => prev
  | some e => e.hash

/-- Modelled from the spec: AuditLedger.append computes the hash over the
previous entry hash and the canonical payload bytes, assigns the next
contiguous sequence number, and extends the list without touching prior
entries. -/
def ledgerAppend (now : Nat) (L : List LedgerEntry) (payload : List Nat) : List LedgerEntry :=
  L ++ [{ seq := L.length,
          prevHash := ledgerTipFrom genesisHash L,
          hash := ledgerHash (ledgerTipFrom genesisHash L) payload,
          payload := payload,
          timestamp := now }]

/-- Modelled from the spec: the chain-integrity check of verifyChain,
generalised to a running previous hash `prev` and a starting sequence
number `n`.  Each entry must carry the expected sequence number, link to
the running hash, and store the recomputed hash of its payload. -/
def chainValidFrom (prev : Nat) (n : Nat) : List LedgerEntry → Bool
  | [] => true
  | e :: rest =>
    decide (e.seq = n) && decide (e.prevHash = prev) &&
      decide (e.hash = ledgerHash prev e.payload) && chainValidFrom e.hash (n + 1) rest

/-- Modelled from the spec: verifyChain starting from the fixed genesis
value and sequence number 0. -/
def chainValid (L : List LedgerEntry) : Bool :=
  chainValidFrom genesisHash 0 L

/-- A ledger produced by the engine: the result of appending a list of
payloads (with their commit timestamps) one by one to the empty ledger. -/
def buildLedger (events : List (Nat × List Nat)) : List LedgerEntry :=
  events.foldl (fun L ev => ledgerAppend ev.1 L ev.2) []

theorem ledgerTipFrom_cons (prev : Nat) (e : LedgerEntry) (L : List LedgerEntry) :
    ledgerTipFrom prev (e :: L) = ledgerTipFrom e.hash L := by
  cases L with
  | nil => simp [ledgerTipFrom]
  | cons f L =>
    rw [ledgerTipFrom, ledgerTipFrom, List.getLast?_cons_cons]
    cases hg : (f :: L).getLast? with
    | none => simp at hg
    | some g => rfl

theorem chainValidFrom_append (p : List Nat) (t : Nat) :
    ∀ (L : List LedgerEntry) (prev n : Nat), chainValidFrom prev n L = true →
      chainValidFrom prev n
        (L ++ [{ seq := n + L.length,
                 prevHash := ledgerTipFrom prev L,
                 hash := ledgerHash (ledgerTipFrom prev L) p,
                 payload := p, timestamp := t }]) = true := by
  intro L
  induction L with
  | nil =>
    intro prev n _
    simp [chainValidFrom, ledgerTipFrom]
  | cons e rest ih =>
    intro prev n h
    simp only [chainValidFrom, Bool.and_eq_true, decide_eq_true_eq] at h
    obtain ⟨⟨⟨h1, h2⟩, h3⟩, h4⟩ := h
    have hlen : n + (e :: rest).length = (n + 1) + rest.length := by
      simp [List.length_cons]; omega
    have htip := ledgerTipFrom_cons prev e rest
    simp only [List.cons_append, chainValidFrom, Bool.and_eq_true, decide_eq_true_eq]
    refine ⟨⟨⟨h1, h2⟩, h3⟩, ?_⟩
    have := ih e.hash (n + 1) h4
    rw [hlen, htip]
    exact this

theorem chainValid_ledgerAppend (now : Nat) (L : List LedgerEntry) (p : List Nat)
    (h : chainValid L = true) : chainValid (ledgerAppend now L p) = true := by
  have := chainValidFrom_append p now L genesisHash 0 h
  simpa [chainValid, ledgerAppend] using this

theorem chainValid_foldl :
    ∀ (events : List (Nat × List Nat)) (L : List LedgerEntry),
      chainValid L = true →
      chainValid (events.foldl (fun acc ev => ledgerAppend ev.1 acc ev.2) L) = true := by
  intro events
  induction events with
  | nil => intro L h; simpa using h
  | cons ev rest ih =>
    intro L h
    simp only [List.foldl_cons]
    exact ih (ledgerAppend ev.1 L ev.2) (chainValid_ledgerAppend ev.1 L ev.2 h)

/-- Claim C1: every ledger produced by the engine passes the chain-integrity
check (every entry hash is the hash of the previous entry hash and the
canonical payload bytes, entry 0 links to the fixed genesis value, and the
global sequence numbers are contiguous and gap-free from 0), and append
never mutates prior entries. -/
theorem ledger_chain_integrity (events : List (Nat × List Nat))
    (now : Nat) (L : List LedgerEntry) (p : List Nat) :
    chainValid (buildLedger events) = true ∧
    (ledgerAppend now L p).take L.length = L := by
  constructor
  · exact chainValid_foldl events [] (by simp [chainValid, chainValidFrom])
  · simp [ledgerAppend]

/-- Modelled from the spec: a SensorReading has a device id, a
monotonically increasing sequence number, a timestamp, and the four
non-negative channel magnitudes pm25, co2, co and voc. -/
structure SensorReading where
  deviceId : Nat
  seq : Nat
  timestamp : Nat
  pm25 : ℚ
  co2 : ℚ
  co : ℚ
  voc : ℚ
deriving Repr, DecidableEq

/-- Modelled from the spec: the closed set of fault kinds. -/
inductive FaultKind
  | STUCK
  | OUT_OF_RANGE
  | STALE
  | CROSS_INCONSISTENT
deriving Repr, DecidableEq

/-- Per-kind fault bookkeeping of the FaultDetector: whether a FaultRecord
of this kind is currently open, the number of consecutive evaluations on
which the rule has not fired, and counters of open and resolve events. -/
structure FaultChannel where
  openRec : Bool
  cleanStreak : Nat
  openCount : Nat
  resolveCount : Nat
deriving Repr, DecidableEq

/-- Fault channel with no open record and no history. -/
def initFaultChannel : FaultChannel :=
  { openRec := false, cleanStreak := 0, openCount := 0, resolveCount := 0 }

/-- Modelled from the spec: one hysteresis evaluation of a detection rule.
A newly true rule opens a FaultRecord if one is not already open for that
kind; a rule that stops firing for M consecutive evaluations resolves the
open record. -/
def faultStep (M : Nat) (ch : FaultChannel) (fired : Bool) : FaultChannel :=
  if fired then
    { openRec := true, cleanStreak := 0,
      openCount := ch.openCount + (if ch.openRec then 0 else 1),
      resolveCount := ch.resolveCount }
  else
    let s := ch.cleanStreak + 1
    if ch.openRec ∧ M ≤ s then
      { openRec := false, cleanStreak := s,
        openCount := ch.openCount, resolveCount := ch.resolveCount + 1 }
    else
      { openRec := ch.openRec, cleanStreak := s,
        openCount := ch.openCount, resolveCount := ch.resolveCount }

/-- Run the hysteresis state machine over a stream of rule evaluations. -/
def runFaultChannel (M : Nat) (ch : FaultChannel) (bs : List Bool) : FaultChannel :=
  bs.foldl (faultStep M) ch

/-- Oscillation bound: starting from a clean streak of `k`, the streak of
consecutive non-firing evaluations never reaches `M` while processing the
stream.  This is the formal reading of a rule condition that oscillates
with period strictly less than M. -/
def streakBoundedBelow (M k : Nat) : List Bool → Bool
  | [] => true
  | b :: bs =>
    if b then streakBoundedBelow M 0 bs
    else decide (k + 1 < M) && streakBoundedBelow M (k + 1) bs

theorem runFaultChannel_characterise (M : Nat) :
    ∀ (bs : List Bool) (ch : FaultChannel),
      streakBoundedBelow M ch.cleanStreak bs = true →
      (runFaultChannel M ch bs).resolveCount = ch.resolveCount ∧
      (runFaultChannel M ch bs).openRec = (ch.openRec || bs.any id) ∧
      (runFaultChannel M ch bs).openCount =
        ch.openCount + (if ch.openRec = false ∧ bs.any id then 1 else 0) := by
  intro bs
  induction bs with
  | nil =>
    intro ch _
    simp [runFaultChannel]
  | cons b bs ih =>
    intro ch h
    cases b with
    | true =>
      simp only [streakBoundedBelow, if_true] at h
      have hstep : faultStep M ch true =
          { openRec := true, cleanStreak := 0,
            openCount := ch.openCount + (if ch.openRec then 0 else 1),
            resolveCount := ch.resolveCount } := by
        simp [faultStep]
      have hrun : runFaultChannel M ch (true :: bs) =
          runFaultChannel M (faultStep M ch true) bs := rfl
      have := ih (faultStep M ch true) (by rw [hstep]; exact h)
      rw [hrun]
      rcases this with ⟨hres, hopen, hcount⟩
      refine ⟨by rw [hres, hstep], ?_, ?_⟩
      · rw [hopen, hstep]
        simp
      · rw [hcount, hstep]
        simp only [List.any_cons, id]
        cases hco : ch.openRec <;> simp
    | false =>
      simp only [streakBoundedBelow, if_false, Bool.and_eq_true, decide_eq_true_eq,
        Bool.false_eq_true] at h
      rcases h with ⟨hlt, hrest⟩
      have hcond : ¬ (ch.openRec = true ∧ M ≤ ch.cleanStreak + 1) := by
        rintro ⟨-, hM⟩; omega
      have hstep : faultStep M ch false =
          { openRec := ch.openRec, cleanStreak := ch.cleanStreak + 1,
            openCount := ch.openCount, resolveCount := ch.resolveCount } := by
        simp [faultStep, hcond]
      have hrun : runFaultChannel M ch (false :: bs) =
          runFaultChannel M (faultStep M ch false) bs := rfl
      have := ih (faultStep M ch false) (by rw [hstep]; exact hrest)
      rw [hrun]
      rcases this with ⟨hres, hopen, hcount⟩
      refine ⟨by rw [hres, hstep], ?_, ?_⟩
      · rw [hopen, hstep]
        simp
      · rw [hcount, hstep]
        simp [List.any_cons]

/-- Claim C6: for every fault kind (arbitrary detection rule) and every
device (arbitrary reading stream), an input sequence on which the rule
condition oscillates with period less than M (the non-firing streak never
reaches the hysteresis count M, M > 1) causes at most one open/resolve
cycle: the FaultRecord opens exactly when the rule first fires, no resolve
event ever occurs, and the record stays open once opened. -/
theorem fault_hysteresis_single_cycle (M : Nat) (rule : SensorReading → Bool)
    (rs : List SensorReading) (hM : 1 < M)
    (hosc : streakBoundedBelow M 0 (rs.map rule) = true) :
    (runFaultChannel M initFaultChannel (rs.map rule)).openCount =
      (if (rs.map rule).any id then 1 else 0) ∧
    (runFaultChannel M initFaultChannel (rs.map rule)).resolveCount = 0 ∧
    (runFaultChannel M initFaultChannel (rs.map rule)).openRec = (rs.map rule).any id := by
  have h := runFaultChannel_characterise M (rs.map rule) initFaultChannel
    (by simpa [initFaultChannel] using hosc)
  rcases h with ⟨hres, hopen, hcount⟩
  refine ⟨?_, ?_, ?_⟩
  · rw [hcount]
    simp only [initFaultChannel]
    cases hany : (rs.map rule).any id <;> simp
  · simpa [initFaultChannel] using hres
  · simpa [initFaultChannel] using hopen

/-- Rule used by the hysteresis witness: fires on even sequence numbers. -/
def evenSeqRule (r : SensorReading) : Bool := decide (r.seq % 2 = 0)

/-- Reading stream used by the hysteresis witness: sequence numbers
0, 1, 2, 3, so the rule alternates fire/clean/fire/clean. -/
def oscReadings : List SensorReading :=
  [{ deviceId := 0, seq := 0, timestamp := 0, pm25 := 0, co2 := 0, co := 0, voc := 0 },
   { deviceId := 0, seq := 1, timestamp := 1, pm25 := 0, co2 := 0, co := 0, voc := 0 },
   { deviceId := 0, seq := 2, timestamp := 2, pm25 := 0, co2 := 0, co := 0, voc := 0 },
   { deviceId := 0, seq := 3, timestamp := 3, pm25 := 0, co2 := 0, co := 0, voc := 0 }]

/-- Concrete instance of the hysteresis theorem: with M = 3 and a rule
firing on even sequence numbers, the alternating stream
fire/clean/fire/clean opens exactly one record and never resolves it. -/
theorem fault_hysteresis_single_cycle_witness :
    (runFaultChannel 3 initFaultChannel (oscReadings.map evenSeqRule)).openCount =
      (if (oscReadings.map evenSeqRule).any id then 1 else 0) ∧
    (runFaultChannel 3 initFaultChannel (oscReadings.map evenSeqRule)).resolveCount = 0 ∧
    (runFaultChannel 3 initFaultChannel (oscReadings.map evenSeqRule)).openRec =
      (oscReadings.map evenSeqRule).any id :=
  fault_hysteresis_single_cycle 3 evenSeqRule oscReadings (by decide) (by decide)

/-- Modelled from the spec: device liveness states. -/
inductive Liveness
  | ONLINE
  | STALE
  | OFFLINE
deriving Repr, DecidableEq

/-- Modelled from the spec: Device record owned by the DeviceRegistry: the
last-seen timestamp (absent before the first accepted reading) and the
liveness state. -/
structure DeviceState where
  lastSeen : Option Nat
  liveness : Liveness
deriving Repr, DecidableEq

/-- Modelled from the spec: the hard physical ceilings used by the
SensorIngestGate for each channel. -/
structure IngestLimits where
  pm25Max : ℚ
  co2Max : ℚ
  coMax : ℚ
  vocMax : ℚ
deriving Repr, DecidableEq

/-- Modelled from the spec: a reading passes value validation when no
channel is negative and none exceeds its hard physical ceiling. -/
def valuesOk (lim : IngestLimits) (r : SensorReading) : Bool :=
  decide (0 ≤ r.pm25) && decide (r.pm25 ≤ lim.pm25Max) &&
    decide (0 ≤ r.co2) && decide (r.co2 ≤ lim.co2Max) &&
    decide (0 ≤ r.co) && decide (r.co ≤ lim.coMax) &&
    decide (0 ≤ r.voc) && decide (r.voc ≤ lim.vocMax)

/-- Modelled from the spec: FaultDetector configuration: window size K,
hysteresis count M, the stuck-epsilon, the plausibility bands per channel
(looser than the ingest ceilings), and the configured cross-channel
consistency check. -/
structure DetectorConfig where
  K : Nat
  M : Nat
  eps : ℚ
  pm25Lo : ℚ
  pm25Hi : ℚ
  co2Lo : ℚ
  co2Hi : ℚ
  coLo : ℚ
  coHi : ℚ
  vocLo : ℚ
  vocHi : ℚ
  crossCheck : SensorReading → Bool

/-- Modelled from the spec: per-device FaultDetector state: the bounded
sliding window of the last K accepted readings (newest first) and one
hysteresis channel per fault kind. -/
structure FaultDetectorState where
  window : List SensorReading
  channels : FaultKind → FaultChannel

/-- FaultDetector state with an empty window and all channels clean. -/
def initFaultDetectorState : FaultDetectorState :=
  { window := [], channels := fun _ => initFaultChannel }

/-- Modelled from the spec: the STUCK rule on one channel: the window holds
at least K readings and every value of the channel is within eps of the
newest one. -/
def channelStuck (cfg : DetectorConfig) (vs : List ℚ) : Bool :=
  match vs with
  | [] => false
  | v :: rest => decide (cfg.K ≤ rest.length + 1) && rest.all (fun y => decide (|y - v| ≤ cfg.eps))

/-- Modelled from the spec: the STUCK rule fires when some sensor channel
is identical within eps over the last K readings. -/
def stuckFired (cfg : DetectorConfig) (w : List SensorReading) : Bool :=
  channelStuck cfg (w.map (fun r => r.pm25)) || channelStuck cfg (w.map (fun r => r.co2)) ||
    channelStuck cfg (w.map (fun r => r.co)) || channelStuck cfg (w.map (fun r => r.voc))

/-- Modelled from the spec: the OUT_OF_RANGE rule fires when some channel
value falls outside its physically plausible band. -/
def rangeFired (cfg : DetectorConfig) (r : SensorReading) : Bool :=
  decide (r.pm25 < cfg.pm25Lo) || decide (cfg.pm25Hi < r.pm25) ||
    decide (r.co2 < cfg.co2Lo) || decide (cfg.co2Hi < r.co2) ||
    decide (r.co < cfg.coLo) || decide (cfg.coHi < r.co) ||
    decide (r.voc < cfg.vocLo) || decide (cfg.vocHi < r.voc)

/-- Modelled from the spec: FaultDetector update on an accepted reading:
push the reading into the bounded window and run one hysteresis evaluation
of the STUCK, OUT_OF_RANGE and CROSS_INCONSISTENT rules; STALE is driven
by the periodic sweep, not by ingest. -/
def detectorUpdate (cfg : DetectorConfig) (st : FaultDetectorState)
    (r : SensorReading) : FaultDetectorState :=
  let w := (r :: st.window).take cfg.K
  { window := w,
    channels := fun k =>
      match k with
      | FaultKind.STUCK => faultStep cfg.M (st.channels FaultKind.STUCK) (stuckFired cfg w)
      | FaultKind.OUT_OF_RANGE =>
          faultStep cfg.M (st.channels FaultKind.OUT_OF_RANGE) (rangeFired cfg r)
      | FaultKind.CROSS_INCONSISTENT =>
          faultStep cfg.M (st.channels FaultKind.CROSS_INCONSISTENT) (cfg.crossCheck r)
      | FaultKind.STALE => st.channels FaultKind.STALE }

/-- Per-device pipeline state touched by ingest: last accepted sequence
number, Device record, and FaultDetector state, each keyed by device id. -/
structure SystemState where
  lastSeq : Nat → Option Nat
  device : Nat → DeviceState
  faults : Nat → FaultDetectorState

/-- State before any reading: no sequences, all devices offline with no
last-seen, all detectors clean. -/
def initSystemState : SystemState :=
  { lastSeq := fun _ => none,
    device := fun _ => { lastSeen := none, liveness := Liveness.OFFLINE },
    faults := fun _ => initFaultDetectorState }

/-- Modelled from the spec: ingest result. -/
inductive IngestResult
  | Accepted
  | Rejected (reason : String)
deriving Repr, DecidableEq

/-- State update on an accepted reading: record the sequence number, mark
the device seen now and ONLINE, and forward the reading to the
FaultDetector. -/
def acceptState (dcfg : DetectorConfig) (st : SystemState) (r : SensorReading)
    (now : Nat) : SystemState :=
  { lastSeq := fun d => if d = r.deviceId then some r.seq else st.lastSeq d,
    device := fun d =>
      if d = r.deviceId then { lastSeen := some now, liveness := Liveness.ONLINE }
      else st.device d,
    faults := fun d =>
      if d = r.deviceId then detectorUpdate dcfg (st.faults r.deviceId) r
      else st.faults d }

/-- Modelled from the spec: SensorIngestGate.ingest: reject when the
sequence number is not greater than the last accepted sequence for the
device or a channel value is negative or above its hard ceiling; on accept,
update Device.lastSeen, set liveness ONLINE and forward to FaultDetector.
Rejection leaves the state untouched. -/
def ingest (lim : IngestLimits) (dcfg : DetectorConfig) (st : SystemState)
    (r : SensorReading) (now : Nat) : IngestResult × SystemState :=
  match st.lastSeq r.deviceId with
  | some l =>
    if r.seq ≤ l then (IngestResult.Rejected "sequence not greater than last accepted", st)
    else if valuesOk lim r then (IngestResult.Accepted, acceptState dcfg st r now)
    else (IngestResult.Rejected "sensor value negative or above hard ceiling", st)
  | none =>
    if valuesOk lim r then (IngestResult.Accepted, acceptState dcfg st r now)
    else (IngestResult.Rejected "sensor value negative or above hard ceiling", st)

/-- Run the gate over a list of readings, producing the final state and the
per-reading trace of results in input order. -/
def ingestRun (lim : IngestLimits) (dcfg : DetectorConfig) (now : Nat) :
    SystemState → List SensorReading → SystemState × List (SensorReading × IngestResult)
  | st, [] => (st, [])
  | st, r :: rs =>
    let step := ingest lim dcfg st r now
    let rest := ingestRun lim dcfg now step.2 rs
    (rest.1, (r, step.1) :: rest.2)

/-- Sequence numbers of the readings accepted for device `d`, in trace
order. -/
def acceptedSeqs (d : Nat) (tr : List (SensorReading × IngestResult)) : List Nat :=
  tr.filterMap (fun p =>
    if p.1.deviceId = d ∧ p.2 = IngestResult.Accepted then some p.1.seq else none)

theorem ingest_snd_of_rejected (lim : IngestLimits) (dcfg : DetectorConfig)
    (st : SystemState) (r : SensorReading) (now : Nat) (reason : String)
    (h : (ingest lim dcfg st r now).1 = IngestResult.Rejected reason) :
    (ingest lim dcfg st r now).2 = st := by
  unfold ingest at h ⊢
  cases hls : st.lastSeq r.deviceId with
  | some l =>
    by_cases h1 : r.seq ≤ l
    · simp [h1]
    · by_cases h2 : valuesOk lim r
      · rw [hls] at h
        simp [h1, h2] at h
      · simp [h1, h2]
  | none =>
    by_cases h2 : valuesOk lim r
    · rw [hls] at h
      simp [h2] at h
    · simp [h2]

theorem ingest_snd_of_accepted (lim : IngestLimits) (dcfg : DetectorConfig)
    (st : SystemState) (r : SensorReading) (now : Nat)
    (h : (ingest lim dcfg st r now).1 = IngestResult.Accepted) :
    (ingest lim dcfg st r now).2 = acceptState dcfg st r now := by
  unfold ingest at h ⊢
  cases hls : st.lastSeq r.deviceId with
  | some l =>
    rw [hls] at h
    by_cases h1 : r.seq ≤ l
    · simp [h1] at h
    · by_cases h2 : valuesOk lim r
      · simp [h1, h2]
      · simp [h1, h2] at h
  | none =>
    rw [hls] at h
    by_cases h2 : valuesOk lim r
    · simp [h2]
    · simp [h2] at h

theorem ingest_accepted_fresh (lim : IngestLimits) (dcfg : DetectorConfig)
    (st : SystemState) (r : SensorReading) (now : Nat) (l : Nat)
    (hls : st.lastSeq r.deviceId = some l)
    (h : (ingest lim dcfg st r now).1 = IngestResult.Accepted) : l < r.seq := by
  unfold ingest at h
  rw [hls] at h
  by_cases h1 : r.seq ≤ l
  · simp [h1] at h
  · omega

theorem ingestRun_snd_cons (lim : IngestLimits) (dcfg : DetectorConfig) (now : Nat)
    (st : SystemState) (r : SensorReading) (rs : List SensorReading) :
    (ingestRun lim dcfg now st (r :: rs)).2 =
      (r, (ingest lim dcfg st r now).1) ::
        (ingestRun lim dcfg now (ingest lim dcfg st r now).2 rs).2 := rfl

theorem acceptedSeqs_cons_rejected (d : Nat) (r : SensorReading) (reason : String)
    (tr : List (SensorReading × IngestResult)) :
    acceptedSeqs d ((r, IngestResult.Rejected reason) :: tr) = acceptedSeqs d tr := by
  simp [acceptedSeqs]

theorem acceptedSeqs_cons_accepted_eq (d : Nat) (r : SensorReading)
    (tr : List (SensorReading × IngestResult)) (hd : r.deviceId = d) :
    acceptedSeqs d ((r, IngestResult.Accepted) :: tr) = r.seq :: acceptedSeqs d tr := by
  simp [acceptedSeqs, hd]

theorem acceptedSeqs_cons_accepted_ne (d : Nat) (r : SensorReading)
    (tr : List (SensorReading × IngestResult)) (hd : ¬ r.deviceId = d) :
    acceptedSeqs d ((r, IngestResult.Accepted) :: tr) = acceptedSeqs d tr := by
  simp [acceptedSeqs, hd]

theorem ingestRun_seq_chain (lim : IngestLimits) (dcfg : DetectorConfig) (now : Nat) :
    ∀ (rs : List SensorReading) (st : SystemState) (d : Nat),
      List.Chain' (fun a b => a < b)
        ((st.lastSeq d).toList ++ acceptedSeqs d (ingestRun lim dcfg now st rs).2) := by
  intro rs
  induction rs with
  | nil =>
    intro st d
    cases st.lastSeq d <;> simp [ingestRun, acceptedSeqs]
  | cons r rs ih =>
    intro st d
    rw [ingestRun_snd_cons]
    cases hres : (ingest lim dcfg st r now).1 with
    | Rejected reason =>
      have hst := ingest_snd_of_rejected lim dcfg st r now reason hres
      rw [acceptedSeqs_cons_rejected, hst]
      exact ih st d
    | Accepted =>
      have hst := ingest_snd_of_accepted lim dcfg st r now hres
      rw [hst]
      by_cases hd : r.deviceId = d
      · rw [acceptedSeqs_cons_accepted_eq d r _ hd]
        have hih := ih (acceptState dcfg st r now) d
        have hls' : (acceptState dcfg st r now).lastSeq d = some r.seq := by
          simp [acceptState, hd]
        rw [hls'] at hih
        simp only [Option.toList_some, List.singleton_append] at hih
        cases hls : st.lastSeq d with
        | none => simpa using hih
        | some l =>
          have hfresh : l < r.seq :=
            ingest_accepted_fresh lim dcfg st r now l (by rw [hd]; exact hls) hres
          simp only [Option.toList_some, List.singleton_append]
          exact List.chain'_cons.mpr ⟨hfresh, hih⟩
      · rw [acceptedSeqs_cons_accepted_ne d r _ hd]
        have hih := ih (acceptState dcfg st r now) d
        have hls' : (acceptState dcfg st r now).lastSeq d = st.lastSeq d := by
          simp [acceptState]
          intro hdd
          exact absurd hdd.symm hd
        rw [hls'] at hih
        exact hih

theorem acceptedSeqs_sublist (lim : IngestLimits) (dcfg : DetectorConfig) (now : Nat) :
    ∀ (rs : List SensorReading) (st : SystemState) (d : Nat),
      List.Sublist (acceptedSeqs d (ingestRun lim dcfg now st rs).2)
        (rs.map (fun x => x.seq)) := by
  intro rs
  induction rs with
  | nil =>
    intro st d
    simp [ingestRun, acceptedSeqs]
  | cons r rs ih =>
    intro st d
    rw [ingestRun_snd_cons]
    cases hres : (ingest lim dcfg st r now).1 with
    | Rejected reason =>
      rw [acceptedSeqs_cons_rejected, List.map_cons]
      exact List.Sublist.cons r.seq (ih (ingest lim dcfg st r now).2 d)
    | Accepted =>
      by_cases hd : r.deviceId = d
      · rw [acceptedSeqs_cons_accepted_eq d r _ hd, List.map_cons]
        exact List.Sublist.cons₂ r.seq (ih (ingest lim dcfg st r now).2 d)
      · rw [acceptedSeqs_cons_accepted_ne d r _ hd, List.map_cons]
        exact List.Sublist.cons r.seq (ih (ingest lim dcfg st r now).2 d)

/-- Claim C2: for every device, the sequence numbers of readings accepted
by the SensorIngestGate are strictly increasing in trace order; any reading
whose sequence number is less than or equal to the last accepted sequence
for its device is rejected with a reason; and accepted readings are never
reordered (the accepted sequence list is a sublist of the input order). -/
theorem ingest_seq_strictly_increasing (lim : IngestLimits) (dcfg : DetectorConfig)
    (now : Nat) (rs : List SensorReading) (d : Nat) (st : SystemState)
    (r : SensorReading) (l : Nat)
    (hl : st.lastSeq r.deviceId = some l) (hle : r.seq ≤ l) :
    List.Chain' (fun a b => a < b)
      (acceptedSeqs d (ingestRun lim dcfg now initSystemState rs).2) ∧
    List.Sublist (acceptedSeqs d (ingestRun lim dcfg now initSystemState rs).2)
      (rs.map (fun x => x.seq)) ∧
    (ingest lim dcfg st r now).1 =
      IngestResult.Rejected "sequence not greater than last accepted" := by
  refine ⟨?_, acceptedSeqs_sublist lim dcfg now rs initSystemState d, ?_⟩
  · have h := ingestRun_seq_chain lim dcfg now rs initSystemState d
    simpa [initSystemState] using h
  · unfold ingest
    rw [hl]
    simp [hle]

/-- Hard ceilings used by concrete witnesses. -/
def witnessLimits : IngestLimits :=
  { pm25Max := 1000, co2Max := 10000, coMax := 1000, vocMax := 2000 }

/-- Detector configuration used by concrete witnesses: window 3,
hysteresis 3, exact stuck match, wide plausibility bands, no cross rule. -/
def witnessDetector : DetectorConfig :=
  { K := 3, M := 3, eps := 0,
    pm25Lo := 0, pm25Hi := 1000, co2Lo := 0, co2Hi := 10000,
    coLo := 0, coHi := 1000, vocLo := 0, vocHi := 2000,
    crossCheck := fun _ => false }

/-- System state used by concrete witnesses: every device has already
accepted sequence number 5. -/
def seededState : SystemState :=
  { lastSeq := fun _ => some 5,
    device := fun _ => { lastSeen := some 0, liveness := Liveness.ONLINE },
    faults := fun _ => initFaultDetectorState }

/-- Concrete instance of the C2 theorem: the oscillating reading stream on
device 0 and a stale reading with sequence 3 against last accepted 5. -/
theorem ingest_seq_strictly_increasing_witness :
    List.Chain' (fun a b => a < b)
      (acceptedSeqs 0 (ingestRun witnessLimits witnessDetector 7 initSystemState oscReadings).2) ∧
    List.Sublist
      (acceptedSeqs 0 (ingestRun witnessLimits witnessDetector 7 initSystemState oscReadings).2)
      (oscReadings.map (fun x => x.seq)) ∧
    (ingest witnessLimits witnessDetector seededState
        { deviceId := 0, seq := 3, timestamp := 9, pm25 := 1, co2 := 1, co := 1, voc := 1 } 7).1 =
      IngestResult.Rejected "sequence not greater than last accepted" :=
  ingest_seq_strictly_increasing witnessLimits witnessDetector 7 oscReadings 0 seededState
    { deviceId := 0, seq := 3, timestamp := 9, pm25 := 1, co2 := 1, co := 1, voc := 1 } 5
    rfl (by decide)

/-- Replay the same reading through the gate n times. -/
def replayIngest (lim : IngestLimits) (dcfg : DetectorConfig) (r : SensorReading)
    (now : Nat) : Nat → SystemState → SystemState
  | 0, st => st
  | n + 1, st => (ingest lim dcfg (replayIngest lim dcfg r now n st) r now).2

/-- Claim C7: a rejected reading mutates no state: the Device bookkeeping
(last seen, liveness, last sequence) and all FaultDetector state are
exactly as before the call, and replaying the identical already-rejected
reading any number of times leaves the state unchanged. -/
theorem rejected_reading_no_state_mutation (lim : IngestLimits) (dcfg : DetectorConfig)
    (st : SystemState) (r : SensorReading) (now : Nat) (reason : String) (n : Nat)
    (h : (ingest lim dcfg st r now).1 = IngestResult.Rejected reason) :
    (ingest lim dcfg st r now).2 = st ∧
    replayIngest lim dcfg r now n st = st := by
  refine ⟨ingest_snd_of_rejected lim dcfg st r now reason h, ?_⟩
  induction n with
  | zero => rfl
  | succ m ih =>
    show (ingest lim dcfg (replayIngest lim dcfg r now m st) r now).2 = st
    rw [ih]
    exact ingest_snd_of_rejected lim dcfg st r now reason h

/-- Concrete instance of the C7 theorem: replaying a stale reading
(sequence 3 against last accepted 5) twice leaves the seeded state
unchanged. -/
theorem rejected_reading_no_state_mutation_witness :
    (ingest witnessLimits witnessDetector seededState
        { deviceId := 0, seq := 3, timestamp := 9, pm25 := 1, co2 := 1, co := 1, voc := 1 } 7).2 =
      seededState ∧
    replayIngest witnessLimits witnessDetector
        { deviceId := 0, seq := 3, timestamp := 9, pm25 := 1, co2 := 1, co := 1, voc := 1 } 7 2
        seededState = seededState :=
  rejected_reading_no_state_mutation witnessLimits witnessDetector seededState
    { deviceId := 0, seq := 3, timestamp := 9, pm25 := 1, co2 := 1, co := 1, voc := 1 } 7
    "sequence not greater than last accepted" 2 rfl

/-- Modelled from the spec: the closed set of directive sources. -/
inductive DirectiveSource
  | AUTO
  | AUTO_DEGRADED
  | OVERRIDE
  | FAILSAFE
deriving Repr, DecidableEq

/-- Modelled from the spec: the per-device supervisor states. -/
inductive SupervisorState
  | NORMAL
  | DEGRADED
  | FAILSAFE
  | RECOVERING
deriving Repr, DecidableEq

/-- Modelled from the spec: a time-bounded manual override: desired fan
state, intensity and expiry timestamp. -/
structure OverrideEntry where
  fanOn : Bool
  intensity : Nat
  expiry : Nat
deriving Repr, DecidableEq

/-- Modelled from the spec: OverrideRegistry.get with lazy expiry: an entry
past its expiry is never returned as active. -/
def activeOverride (now : Nat) (ov : Option OverrideEntry) : Option OverrideEntry :=
  match ov with
  | none => none
  | some o => if now < o.expiry then some o else none

/-- Modelled from the spec: a ControlDirective: fan-on flag, intensity,
source, decision time and human-readable rationale. -/
structure ControlDirective where
  deviceId : Nat
  fanOn : Bool
  intensity : Nat
  source : DirectiveSource
  decidedAt : Nat
  rationale : String
deriving Repr, DecidableEq

/-- Modelled from the spec: the oracle response: a risk score in [0, 1]
and a classification label.  A timed-out or failed call is represented by
the absence of a verdict. -/
structure OracleVerdict where
  riskScore : ℚ
  label : String
deriving Repr, DecidableEq

/-- Modelled from the spec: the configured per-channel decision limits. -/
structure DecisionThresholds where
  pm25Limit : ℚ
  co2Limit : ℚ
  coLimit : ℚ
  vocLimit : ℚ
deriving Repr, DecidableEq

/-- Number of channels of the latest reading exceeding their configured
limits. -/
def exceededCount (cfg : DecisionThresholds) (r : SensorReading) : Nat :=
  (if cfg.pm25Limit < r.pm25 then 1 else 0) + (if cfg.co2Limit < r.co2 then 1 else 0) +
    (if cfg.coLimit < r.co then 1 else 0) + (if cfg.vocLimit < r.voc then 1 else 0)

/-- Modelled from the spec: the deterministic threshold-computed intensity:
channels exceeding configured limits force the fan on at a computed
intensity, capped at 100. -/
def thresholdIntensity (cfg : DecisionThresholds) (r : SensorReading) : Nat :=
  min 100 (25 * exceededCount cfg r)

/-- Intensity suggested by an oracle verdict: the risk score scaled to the
0 to 100 intensity range. -/
def oracleIntensity (v : OracleVerdict) : Nat :=
  min 100 (v.riskScore * 100).floor.toNat

namespace DecisionEngine

/-- Modelled from the spec: DecisionEngine.decide.  Precedence, highest
first: supervisor FAILSAFE forces the fixed safe default; an active
non-expired override is returned with its exact requested values; otherwise
the deterministic thresholds are evaluated and, in states where the oracle
is consulted (not DEGRADED), a verdict returned within the timeout may
raise but never lower the threshold intensity; a missing or skipped verdict
yields the threshold-only result flagged AUTO_DEGRADED. -/
def decide (cfg : DecisionThresholds) (deviceId now : Nat) (sup : SupervisorState)
    (ov : Option OverrideEntry) (latest : SensorReading)
    (oracle : Option OracleVerdict) : ControlDirective :=
  if sup = SupervisorState.FAILSAFE then
    { deviceId := deviceId, fanOn := true, intensity := 100,
      source := DirectiveSource.FAILSAFE, decidedAt := now,
      rationale := "failsafe: critical fault open, fixed safe default" }
  else
    match activeOverride now ov with
    | some o =>
      { deviceId := deviceId, fanOn := o.fanOn, intensity := o.intensity,
        source := DirectiveSource.OVERRIDE, decidedAt := now,
        rationale := "manual override active" }
    | none =>
      let tI := thresholdIntensity cfg latest
      let consulted : Option OracleVerdict :=
        match sup with
        | SupervisorState.DEGRADED => none
        | _ => oracle
      match consulted with
      | some v =>
        let fI := max tI (oracleIntensity v)
        { deviceId := deviceId, fanOn := Decidable.decide (0 < fI), intensity := fI,
          source := DirectiveSource.AUTO, decidedAt := now,
          rationale := "thresholds with oracle verdict " ++ v.label }
      | none =>
        { deviceId := deviceId, fanOn := Decidable.decide (0 < tI), intensity := tI,
          source := DirectiveSource.AUTO_DEGRADED, decidedAt := now,
          rationale := "thresholds only; oracle unavailable or skipped" }

end DecisionEngine

/-- Claim C3: for every device with an active non-expired override and no
open critical fault (supervisor not in FAILSAFE), decide returns a
directive with source OVERRIDE whose fan-on flag and intensity equal
exactly the requested override values, for every threshold configuration,
every latest reading and every oracle behaviour. -/
theorem override_precedence (cfg : DecisionThresholds) (deviceId now : Nat)
    (sup : SupervisorState) (ov : Option OverrideEntry) (latest : SensorReading)
    (oracle : Option OracleVerdict) (o : OverrideEntry)
    (hsup : sup ≠ SupervisorState.FAILSAFE)
    (hov : activeOverride now ov = some o) :
    DecisionEngine.decide cfg deviceId now sup ov latest oracle =
      { deviceId := deviceId, fanOn := o.fanOn, intensity := o.intensity,
        source := DirectiveSource.OVERRIDE, decidedAt := now,
        rationale := "manual override active" } := by
  unfold DecisionEngine.decide
  rw [if_neg hsup, hov]

/-- Concrete instance of the C3 theorem: an override requesting fan on at
intensity 80 until time 100, read at time 5 in NORMAL state, wins over a
reading far above every threshold and a zero-risk oracle verdict. -/
theorem override_precedence_witness :
    DecisionEngine.decide { pm25Limit := 1, co2Limit := 1, coLimit := 1, vocLimit := 1 }
        0 5 SupervisorState.NORMAL (some { fanOn := true, intensity := 80, expiry := 100 })
        { deviceId := 0, seq := 0, timestamp := 0, pm25 := 500, co2 := 500, co := 500, voc := 500 }
        (some { riskScore := 0, label := "clean" }) =
      { deviceId := 0, fanOn := true, intensity := 80,
        source := DirectiveSource.OVERRIDE, decidedAt := 5,
        rationale := "manual override active" } :=
  override_precedence { pm25Limit := 1, co2Limit := 1, coLimit := 1, vocLimit := 1 }
    0 5 SupervisorState.NORMAL (some { fanOn := true, intensity := 80, expiry := 100 })
    { deviceId := 0, seq := 0, timestamp := 0, pm25 := 500, co2 := 500, co := 500, voc := 500 }
    (some { riskScore := 0, label := "clean" })
    { fanOn := true, intensity := 80, expiry := 100 }
    (by decide) (by decide)

/-- Claim C4: when the decision path consults the oracle and the oracle
returns a verdict within its timeout, the intensity of the resulting
directive is greater than or equal to the threshold-computed intensity,
for every oracle risk verdict: the verdict may increase but never decrease
the threshold result.  The hypotheses restrict to the automatic path
(no active override, supervisor not in FAILSAFE), which is the only path
on which the oracle is attempted. -/
theorem oracle_never_decreases_intensity (cfg : DecisionThresholds)
    (deviceId now : Nat) (sup : SupervisorState) (ov : Option OverrideEntry)
    (latest : SensorReading) (v : OracleVerdict)
    (hsup : sup ≠ SupervisorState.FAILSAFE)
    (hov : activeOverride now ov = none) :
    thresholdIntensity cfg latest ≤
      (DecisionEngine.decide cfg deviceId now sup ov latest (some v)).intensity := by
  unfold DecisionEngine.decide
  rw [if_neg hsup, hov]
  cases sup with
  | FAILSAFE => exact absurd rfl hsup
  | NORMAL => simpa using Nat.le_max_left (thresholdIntensity cfg latest) (oracleIntensity v)
  | RECOVERING => simpa using Nat.le_max_left (thresholdIntensity cfg latest) (oracleIntensity v)
  | DEGRADED => simp

/-- Concrete instance of the C4 theorem: a maximal-risk verdict against a
reading that exceeds one threshold. -/
theorem oracle_never_decreases_intensity_witness :
    thresholdIntensity { pm25Limit := 100, co2Limit := 1000, coLimit := 50, vocLimit := 200 }
        { deviceId := 0, seq := 0, timestamp := 0, pm25 := 150, co2 := 500, co := 5, voc := 50 } ≤
      (DecisionEngine.decide
          { pm25Limit := 100, co2Limit := 1000, coLimit := 50, vocLimit := 200 }
          0 5 SupervisorState.NORMAL none
          { deviceId := 0, seq := 0, timestamp := 0, pm25 := 150, co2 := 500, co := 5, voc := 50 }
          (some { riskScore := 1, label := "smoke" })).intensity :=
  oracle_never_decreases_intensity
    { pm25Limit := 100, co2Limit := 1000, coLimit := 50, vocLimit := 200 }
    0 5 SupervisorState.NORMAL none
    { deviceId := 0, seq := 0, timestamp := 0, pm25 := 150, co2 := 500, co := 5, voc := 50 }
    { riskScore := 1, label := "smoke" }
    (by decide) (by decide)

/-- Claim C5: for every device not under an active override and not in
FAILSAFE, if the oracle call times out or errors (no verdict), decide still
returns a directive whose fan-on flag and intensity are determined by the
deterministic thresholds alone, with source AUTO_DEGRADED; oracle failure
never prevents a directive from being produced. -/
theorem oracle_failure_degrades_gracefully (cfg : DecisionThresholds)
    (deviceId now : Nat) (sup : SupervisorState) (ov : Option OverrideEntry)
    (latest : SensorReading)
    (hsup : sup ≠ SupervisorState.FAILSAFE)
    (hov : activeOverride now ov = none) :
    DecisionEngine.decide cfg deviceId now sup ov latest none =
      { deviceId := deviceId,
        fanOn := Decidable.decide (0 < thresholdIntensity cfg latest),
        intensity := thresholdIntensity cfg latest,
        source := DirectiveSource.AUTO_DEGRADED, decidedAt := now,
        rationale := "thresholds only; oracle unavailable or skipped" } := by
  unfold DecisionEngine.decide
  rw [if_neg hsup, hov]
  cases sup with
  | FAILSAFE => exact absurd rfl hsup
  | NORMAL => rfl
  | DEGRADED => rfl
  | RECOVERING => rfl

/-- Concrete instance of the C5 theorem: no verdict in NORMAL state with an
expired override present in the registry. -/
theorem oracle_failure_degrades_gracefully_witness :
    DecisionEngine.decide { pm25Limit := 100, co2Limit := 1000, coLimit := 50, vocLimit := 200 }
        0 50 SupervisorState.NORMAL (some { fanOn := true, intensity := 100, expiry := 10 })
        { deviceId := 0, seq := 0, timestamp := 0, pm25 := 150, co2 := 500, co := 5, voc := 50 }
        none =
      { deviceId := 0,
        fanOn := Decidable.decide (0 < thresholdIntensity
          { pm25Limit := 100, co2Limit := 1000, coLimit := 50, vocLimit := 200 }
          { deviceId := 0, seq := 0, timestamp := 0, pm25 := 150, co2 := 500, co := 5, voc := 50 }),
        intensity := thresholdIntensity
          { pm25Limit := 100, co2Limit := 1000, coLimit := 50, vocLimit := 200 }
          { deviceId := 0, seq := 0, timestamp := 0, pm25 := 150, co2 := 500, co := 5, voc := 50 },
        source := DirectiveSource.AUTO_DEGRADED, decidedAt := 50,
        rationale := "thresholds only; oracle unavailable or skipped" } :=
  oracle_failure_degrades_gracefully
    { pm25Limit := 100, co2Limit := 1000, coLimit := 50, vocLimit := 200 }
    0 50 SupervisorState.NORMAL (some { fanOn := true, intensity := 100, expiry := 10 })
    { deviceId := 0, seq := 0, timestamp := 0, pm25 := 150, co2 := 500, co := 5, voc := 50 }
    (by decide) (by decide)

/-- Status of the PM 2.5 SensorCard in Dashboard.jsx: warning above 50,
normal otherwise. -/
def pm25Status (v : ℚ) : String := if 50 < v then "warning" else "normal"

/-- Status of the CO2 SensorCard in Dashboard.jsx: warning above 1000,
normal otherwise. -/
def co2Status (v : ℚ) : String := if 1000 < v then "warning" else "normal"

/-- Status of the CO SensorCard in Dashboard.jsx: critical above 10,
normal otherwise. -/
def coStatus (v : ℚ) : String := if 10 < v then "critical" else "normal"

/-- Status of the VOC SensorCard in Dashboard.jsx: warning above 200,
normal otherwise. -/
def vocStatus (v : ℚ) : String := if 200 < v then "warning" else "normal"

/-- Prediction value produced by the dashboard heuristic and consumed by
PredictionPanel. -/
structure PredictionVal where
  will_peak : Bool
  confidence : ℚ
  reasoning : String
deriving Repr, DecidableEq

/-- Classification value produced by the dashboard heuristic. -/
structure AirClassification where
  air_type : String
  reasoning : String
deriving Repr, DecidableEq

/-- Embedded from Dashboard.jsx fetchData: the simple heuristic computing
the prediction and classification from the latest reading.  If pm25 is
above 100 the prediction is will-peak with confidence 0.9 and the air type
is smoke; otherwise the prediction is stable with confidence 0.85 and the
air type is clean. -/
def fetchDataAnalysis (latest : SensorReading) : PredictionVal × AirClassification :=
  if 100 < latest.pm25 then
    ({ will_peak := true, confidence := 9 / 10, reasoning := "PM2.5 rising rapidly" },
     { air_type := "smoke", reasoning := "High particulate matter" })
  else
    ({ will_peak := false, confidence := 17 / 20, reasoning := "Air quality stable" },
     { air_type := "clean", reasoning := "All sensors within normal range" })

/-- Embedded from PredictionPanel.jsx: the displayed smoke risk level is
HIGH when the prediction will peak, MEDIUM when its confidence is above
0.7, and LOW otherwise (also when no prediction is loaded). -/
def riskLevel (pred : Option PredictionVal) : String :=
  match pred with
  | some p => if p.will_peak then "HIGH" else if 7 / 10 < p.confidence then "MEDIUM" else "LOW"
  | none => "LOW"

/-- The scenario reading of claim C8: pm25 45.2, co2 850, co 12.5,
voc 120. -/
def scenarioReading : SensorReading :=
  { deviceId := 1, seq := 0, timestamp := 0,
    pm25 := 226 / 5, co2 := 850, co := 25 / 2, voc := 120 }

/-- Counterexample to claim C8 as stated: in the dashboard code the CO
value 12.5 is above the critical threshold 10, so its SensorCard status is
critical, not normal; only the other three channels are within normal
bounds. -/
theorem scenario_co_not_normal :
    coStatus scenarioReading.co = "critical" ∧
    coStatus scenarioReading.co ≠ "normal" ∧
    pm25Status scenarioReading.pm25 = "normal" ∧
    co2Status scenarioReading.co2 = "normal" ∧
    vocStatus scenarioReading.voc = "normal" := by
  refine ⟨?_, ?_, ?_, ?_, ?_⟩ <;>
    norm_num [coStatus, pm25Status, co2Status, vocStatus, scenarioReading]
  decide

/-- Claim C8 (amended): for the reading pm25 45.2, co2 850, co 12.5,
voc 120 the pm25, co2 and voc SensorCards show status normal while the CO
card shows critical; under the spec-modelled decision engine with a
threshold configuration that this reading does not exceed and a zero-risk
oracle verdict, the decision is a directive with fanOn false and source
AUTO. -/
theorem scenario_decision_auto_fan_off :
    exceededCount { pm25Limit := 100, co2Limit := 1000, coLimit := 50, vocLimit := 200 }
        scenarioReading = 0 ∧
    DecisionEngine.decide { pm25Limit := 100, co2Limit := 1000, coLimit := 50, vocLimit := 200 }
        1 0 SupervisorState.NORMAL none scenarioReading
        (some { riskScore := 0, label := "clean" }) =
      { deviceId := 1, fanOn := false, intensity := 0,
        source := DirectiveSource.AUTO, decidedAt := 0,
        rationale := "thresholds with oracle verdict clean" } := by
  have h0 : exceededCount
      { pm25Limit := 100, co2Limit := 1000, coLimit := 50, vocLimit := 200 }
      scenarioReading = 0 := by
    norm_num [exceededCount, scenarioReading]
  refine ⟨h0, ?_⟩
  unfold DecisionEngine.decide
  rw [if_neg (by decide : ¬ (SupervisorState.NORMAL = SupervisorState.FAILSAFE))]
  norm_num [activeOverride, thresholdIntensity, oracleIntensity, h0]
  exact ⟨le_of_eq rfl, rfl⟩

/-- Claim C9: in the PredictionPanel, every prediction with will-peak false
and confidence strictly above 0.7 is displayed as MEDIUM smoke risk and
never LOW; in particular the stable-air prediction computed by the
dashboard for the scenario reading (will-peak false, confidence 0.85) is
rendered MEDIUM. -/
theorem prediction_panel_medium_risk (p : PredictionVal)
    (h1 : p.will_peak = false) (h2 : 7 / 10 < p.confidence) :
    riskLevel (some p) = "MEDIUM" ∧
    riskLevel (some p) ≠ "LOW" ∧
    riskLevel (some (fetchDataAnalysis scenarioReading).1) = "MEDIUM" := by
  refine ⟨?_, ?_, ?_⟩
  · simp [riskLevel, h1, h2]
  · simp [riskLevel, h1, h2]
  · norm_num [riskLevel, fetchDataAnalysis, scenarioReading]

/-- Concrete instance of the C9 theorem: the stable-air prediction with
confidence 0.85. -/
theorem prediction_panel_medium_risk_witness :
    riskLevel (some { will_peak := false, confidence := 17 / 20,
                      reasoning := "Air quality stable" }) = "MEDIUM" ∧
    riskLevel (some { will_peak := false, confidence := 17 / 20,
                      reasoning := "Air quality stable" }) ≠ "LOW" ∧
    riskLevel (some (fetchDataAnalysis scenarioReading).1) = "MEDIUM" :=
  prediction_panel_medium_risk
    { will_peak := false, confidence := 17 / 20, reasoning := "Air quality stable" }
    rfl (by norm_num)

/-- Claim C10: the prediction and classification shown in the AI Analysis
panel are a deterministic pure function of the latest reading pm25 value
alone: readings agreeing on pm25 produce identical analyses (co2, co and
voc never affect them), and the analysis is the will-peak 0.9 smoke pair
when pm25 is above 100 and the stable 0.85 clean pair otherwise; no
external prediction service enters the computation. -/
theorem dashboard_analysis_depends_only_on_pm25 (r q : SensorReading)
    (h : r.pm25 = q.pm25) :
    fetchDataAnalysis r = fetchDataAnalysis q ∧
    fetchDataAnalysis r =
      (if 100 < r.pm25 then
        ({ will_peak := true, confidence := 9 / 10, reasoning := "PM2.5 rising rapidly" },
         { air_type := "smoke", reasoning := "High particulate matter" })
      else
        ({ will_peak := false, confidence := 17 / 20, reasoning := "Air quality stable" },
         { air_type := "clean", reasoning := "All sensors within normal range" })) := by
  constructor
  · unfold fetchDataAnalysis
    rw [h]
  · rfl

/-- Concrete instance of the C10 theorem: the scenario reading and a
reading with identical pm25 but different co2, co and voc give the same
analysis. -/
theorem dashboard_analysis_depends_only_on_pm25_witness :
    fetchDataAnalysis scenarioReading =
      fetchDataAnalysis
        { deviceId := 2, seq := 9, timestamp := 100,
          pm25 := 226 / 5, co2 := 5000, co := 900, voc := 1999 } ∧
    fetchDataAnalysis scenarioReading =
      (if 100 < scenarioReading.pm25 then
        ({ will_peak := true, confidence := 9 / 10, reasoning := "PM2.5 rising rapidly" },
         { air_type := "smoke", reasoning := "High particulate matter" })
      else
        ({ will_peak := false, confidence := 17 / 20, reasoning := "Air quality stable" },
         { air_type := "clean", reasoning := "All sensors within normal range" })) :=
  dashboard_analysis_depends_only_on_pm25 scenarioReading
    { deviceId := 2, seq := 9, timestamp := 100,
      pm25 := 226 / 5, co2 := 5000, co := 900, voc := 1999 }
    rfl
